import Mathlib

/-!
Verification of the prompt-construction and mode-selection logic of the
Kue mastermind backend (`src/main.py`).

The embedding is shallow: the pure string-assembly functions
(`build_system_prompt`, `generate_mock_response`, the style-context
formatting) are translated directly into Lean functions; the endpoint
`run_mastermind` is modelled as a function over oracles standing for the
two outbound collaborators (the ChromaDB similarity query and the OpenAI
chat call) plus the JSON parser, with Python exceptions modelled as
`Except.error` and `HTTPException(500, str(e))` as the `failure 500 e`
outcome.  The returned pair of naturals counts how many times the
similarity query and the chat call were invoked on the taken code path.
-/

/-- Pydantic model `Dossier` (src/main.py lines 30-34). -/
structure Dossier where
  name : String
  category : String
  role_title : String
  archetype : Option String := some "Standard"
  deriving DecidableEq, Repr

/-- Pydantic model `RequestPayload` (src/main.py lines 36-40). -/
structure RequestPayload where
  incoming_text : String
  dossier : Dossier
  custom_input : Option String := none
  previous_rejects : List String := []
  deriving DecidableEq, Repr

/-- Python truthiness of an `Optional[str]` value: `None` and the empty
string are falsy, every other string is truthy.  This is the test
performed by `if req.custom_input:` in the source. -/
def pyTruthy : Option String → Bool
  | some s => !(s == "")
  | none => false

/-- The persona / tone-definition triple assigned in section 5a of
`build_system_prompt` (src/main.py lines 101-113). -/
structure PersonaDef where
  persona : String
  neg_definition : String
  pos_definition : String
  deriving DecidableEq, Repr

/-- Section 5a of `build_system_prompt` (src/main.py lines 102-113):
the if/elif/else chain on `req.dossier.category`. -/
def resolvePersona (category : String) : PersonaDef :=
  if category = "Work" then
    { persona := "You are a Strategic Corporate Communication Expert."
      neg_definition := "Firm Refusal / Setting Boundaries"
      pos_definition := "Agreement / Action-Oriented" }
  else if category = "Dating" then
    { persona := "You are a High-EQ Dating Coach."
      neg_definition := "Disinterest / Sassy"
      pos_definition := "Warmth / Flirting" }
  else
    { persona := "You are a witty friend."
      neg_definition := "Disagreement / Roast"
      pos_definition := "Hype / Love" }

/-- The fixed text of the custom-request generation task that precedes the
interpolated `req.custom_input` (src/main.py line 117-118). -/
def custom_head : String := "\n        USER CUSTOM REQUEST: \""

/-- The fixed text of the custom-request generation task that follows the
interpolated `req.custom_input` (src/main.py lines 118-121). -/
def custom_tail : String :=
  "\"\n        Generate 3 variations of this specific custom request.\n        keys: [\"option_1\", \"option_2\", \"option_3\"]\n        "

/-- Section 5b of `build_system_prompt` (src/main.py lines 116-128): the
`generation_task` local, branching on the truthiness of
`req.custom_input`. -/
def build_generation_task (custom_input : Option String)
    (pos_definition neg_definition : String) : String :=
  if pyTruthy custom_input then
    custom_head ++ custom_input.getD "" ++ custom_tail
  else
    "\n        Generate 3 Distinct Sentiment Options:\n        1. \"positive\": "
      ++ pos_definition
      ++ "\n        2. \"neutral\": Safe / Non-committal\n        3. \"negative\": "
      ++ neg_definition ++ "\n        "

/-- The `generation_task` local variable of `build_system_prompt` for a
given request, with the persona definitions resolved from the dossier
category exactly as in src/main.py lines 99-128. -/
def generation_task (req : RequestPayload) : String :=
  build_generation_task req.custom_input
    (resolvePersona req.dossier.category).pos_definition
    (resolvePersona req.dossier.category).neg_definition

/-- `build_system_prompt` (src/main.py lines 98-141): the returned
f-string, with the persona and generation task interpolated. -/
def build_system_prompt (req : RequestPayload) (style_data : String) : String :=
  "\n    ROLE: " ++ (resolvePersona req.dossier.category).persona
    ++ "\n    \n    INPUT CONTEXT:\n    - User is replying to: "
    ++ req.dossier.name ++ " (" ++ req.dossier.role_title
    ++ ")\n    - User\x27s Style Samples (from Vector DB):\n    "
    ++ style_data
    ++ "\n    \n    YOUR TASK (Output JSON Only):\n    1. \"analysis\": Decode the incoming message (translation, threat_level, strategy_advice).\n    2. \"replies\": "
    ++ generation_task req ++ "\n    "

/-- Python `sep.join(xs)`: concatenation of the elements of `xs`
separated by `sep`. -/
def pyJoin (sep : String) : List String → String
  | [] => ""
  | [s] => s
  | s :: rest => s ++ sep ++ pyJoin sep rest

/-- The `style_context` expression of `run_mastermind`
(src/main.py line 73): a "- "-bulleted, newline-joined list of the
retrieved documents, or the fixed placeholder when the list is falsy. -/
def style_context (style_docs : List String) : String :=
  if style_docs.isEmpty then "(No past samples, use standard tone)"
  else pyJoin "\n" (style_docs.map (fun s => "- " ++ s))

/-- The `style_docs` expression of `run_mastermind` (src/main.py
line 72): `results['documents'][0] if results['documents'] else []`,
where the `documents` field of a Chroma query result is an optional list
of per-query document lists. -/
def extract_style_docs : Option (List (List String)) → List String
  | some (d :: _) => d
  | some [] => []
  | none => []

/-- The user-turn message sent to the chat API (src/main.py line 83). -/
def user_turn (incoming_text : String) : String :=
  "Incoming Message: \"" ++ incoming_text ++ "\"\n\nAnalyze and Generate."

/-- The `analysis` object of a mock response (src/main.py
lines 148 and 170). -/
structure MockAnalysis where
  translation : String
  strategy_advice : String
  deriving DecidableEq, Repr

/-- The JSON object returned by `generate_mock_response`: an analysis
and an ordered replies mapping (src/main.py lines 147-172). -/
structure MockResponse where
  analysis : MockAnalysis
  replies : List (String × String)
  deriving DecidableEq, Repr

/-- `generate_mock_response` (src/main.py lines 144-172). -/
def generate_mock_response (req : RequestPayload) : MockResponse :=
  if pyTruthy req.custom_input then
    { analysis := { translation := "Custom Mode", strategy_advice := "Executing command." }
      replies :=
        [("option_1", "Custom: " ++ req.custom_input.getD ""),
         ("option_2", "Variation: " ++ req.custom_input.getD ""),
         ("option_3", "Short: " ++ req.custom_input.getD "")] }
  else
    { analysis := { translation := "Mock Logic", strategy_advice := "This is a demo response." }
      replies :=
        if req.dossier.category = "Work" then
          [("positive", "I will handle this immediately."),
           ("neutral", "Received, reviewing now."),
           ("negative", "My bandwidth is full.")]
        else
          [("positive", "Sounds good!"),
           ("neutral", "I\x27ll let you know."),
           ("negative", "No thanks.")] }

/-- The observable outcome of one call to the `/mastermind` endpoint:
a mock-mode response, a live-mode JSON payload relayed from the chat
API, or an `HTTPException(status, detail)`. -/
inductive EndpointResult (Json : Type) where
  | mockSuccess : MockResponse → EndpointResult Json
  | liveSuccess : Json → EndpointResult Json
  | failure : Nat → String → EndpointResult Json
  deriving DecidableEq, Repr

/-- `run_mastermind` (src/main.py lines 61-93).  `use_mock_ai` is the
module flag decided at startup; `query_result` is the outcome of
`collection.query` (`Except.error` models a raised exception, the
payload models `results['documents']`); `chat` is the outcome of
`client.chat.completions.create` applied to the system and user turns;
`parse_json` models `json.loads`.  The `try/except` of the live path
turns any raised error `e` into `HTTPException(500, str(e))`.  The two
trailing naturals count invocations of the similarity query and of the
chat call on the executed path. -/
def run_mastermind {Json : Type} (use_mock_ai : Bool) (req : RequestPayload)
    (query_result : Except String (Option (List (List String))))
    (chat : String → String → Except String String)
    (parse_json : String → Except String Json) :
    EndpointResult Json × Nat × Nat :=
  if use_mock_ai then
    (EndpointResult.mockSuccess (generate_mock_response req), 0, 0)
  else
    match query_result with
    | Except.error e => (EndpointResult.failure 500 e, 1, 0)
    | Except.ok results =>
      let style_docs := extract_style_docs results
      let sc := style_context style_docs
      let system_instruction := build_system_prompt req sc
      match chat system_instruction (user_turn req.incoming_text) with
      | Except.error e => (EndpointResult.failure 500 e, 1, 1)
      | Except.ok content =>
        match parse_json content with
        | Except.error e => (EndpointResult.failure 500 e, 1, 1)
        | Except.ok j => (EndpointResult.liveSuccess j, 1, 1)

/-- The Work-category request of the mock-mode scenario:
`{incoming_text:"can we reschedule?", dossier:{name:"Sam",
category:"Work", role_title:"Manager"}}` with no custom input. -/
def work_req : RequestPayload :=
  { incoming_text := "can we reschedule?"
    dossier := { name := "Sam", category := "Work", role_title := "Manager" } }

/-- A request carrying the custom instruction "tell them no politely". -/
def custom_req : RequestPayload :=
  { incoming_text := "hey"
    dossier := { name := "Alex", category := "Dating", role_title := "Friend" }
    custom_input := some "tell them no politely" }

/-- A request whose custom instruction is itself the word "positive". -/
def adversarial_req : RequestPayload :=
  { incoming_text := "ok"
    dossier := { name := "Sam", category := "Work", role_title := "Manager" }
    custom_input := some "positive" }

/-! ### Substring occurrence machinery

`containsSub pat s` decides whether `pat` occurs contiguously inside
`s`; `OccursIn` is the corresponding proposition.  These are used to
state which reply labels appear in the composed prompt text. -/

/-- Boolean contiguous-substring test on character lists. -/
def containsSub (pat : List Char) : List Char → Bool
  | [] => pat.isEmpty
  | c :: rest => pat.isPrefixOf (c :: rest) || containsSub pat rest

/-- `pat` occurs contiguously inside `s`. -/
def OccursIn (pat s : List Char) : Prop := ∃ u v, s = u ++ pat ++ v

/-- `strContains s pat` is true when `pat` is a contiguous substring of
`s`. -/
def strContains (s pat : String) : Bool := containsSub pat.data s.data

theorem containsSub_iff {pat : List Char} :
    ∀ {s : List Char}, containsSub pat s = true ↔ OccursIn pat s := by
  intro s
  induction s with
  | nil =>
    simp only [containsSub, List.isEmpty_iff, OccursIn]
    constructor
    · rintro rfl; exact ⟨[], [], rfl⟩
    · rintro ⟨u, v, huv⟩
      rcases List.append_eq_nil.mp huv.symm with ⟨h1, -⟩
      exact (List.append_eq_nil.mp h1).2
  | cons c rest ih =>
    simp only [containsSub, Bool.or_eq_true, List.isPrefixOf_iff_prefix, ih]
    constructor
    · rintro (⟨t, ht⟩ | ⟨u, v, huv⟩)
      · exact ⟨[], t, by rw [List.nil_append]; exact ht.symm⟩
      · exact ⟨c :: u, v, by rw [huv]; simp [List.cons_append]⟩
    · rintro ⟨u, v, huv⟩
      cases u with
      | nil =>
        rw [List.nil_append] at huv
        exact Or.inl ⟨v, huv.symm⟩
      | cons a u' =>
        rw [List.cons_append, List.cons_append] at huv
        injection huv with h1 h2
        exact Or.inr ⟨u', v, h2⟩

theorem occursIn_self (l : List Char) : OccursIn l l := ⟨[], [], by simp⟩

theorem occursIn_append_right {pat Y : List Char} (X : List Char)
    (h : OccursIn pat Y) : OccursIn pat (X ++ Y) := by
  rcases h with ⟨u, v, rfl⟩
  exact ⟨X ++ u, v, by simp [List.append_assoc]⟩

theorem occursIn_append_left {pat X : List Char} (Y : List Char)
    (h : OccursIn pat X) : OccursIn pat (X ++ Y) := by
  rcases h with ⟨u, v, rfl⟩
  exact ⟨u, v ++ Y, by simp [List.append_assoc]⟩

/-- An occurrence inside `X ++ Y` lies inside `X`, inside `Y`, or
straddles the boundary, in which case the pattern splits into a
non-empty suffix of `X` followed by a non-empty prefix of `Y`. -/
theorem occursIn_append_split {pat X Y : List Char} (h : OccursIn pat (X ++ Y)) :
    OccursIn pat X ∨ OccursIn pat Y ∨
      ∃ p q, pat = p ++ q ∧ p ≠ [] ∧ q ≠ [] ∧ p <:+ X ∧ q <+: Y := by
  rcases h with ⟨u, v, huv⟩
  rw [List.append_assoc] at huv
  rcases List.append_eq_append_iff.mp huv with ⟨t, htu, htY⟩ | ⟨t, htX, htv⟩
  · exact Or.inr (Or.inl ⟨t, v, by rw [htY, List.append_assoc]⟩)
  · rcases List.append_eq_append_iff.mp htv with ⟨w, hw1, hw2⟩ | ⟨w, hw1, hw2⟩
    · exact Or.inl ⟨u, w, by rw [htX, hw1, List.append_assoc]⟩
    · by_cases ht0 : t = []
      · subst ht0
        rw [List.nil_append] at hw1
        exact Or.inr (Or.inl ⟨[], v, by rw [hw2, hw1]; simp⟩)
      · by_cases hw0 : w = []
        · subst hw0
          rw [List.append_nil] at hw1
          exact Or.inl ⟨u, [], by rw [htX, hw1]; simp⟩
        · exact Or.inr (Or.inr ⟨t, w, hw1, ht0, hw0, ⟨u, htX.symm⟩, ⟨v, hw2.symm⟩⟩)

theorem head?_of_pref {l₁ l₂ : List Char} (h : l₁ <+: l₂) (hne : l₁ ≠ []) :
    l₂.head? = l₁.head? := by
  rcases h with ⟨t, rfl⟩
  cases l₁ with
  | nil => exact absurd rfl hne
  | cons a l => rfl

theorem getLast?_of_suffix {l₁ l₂ : List Char} (h : l₁ <:+ l₂) (hne : l₁ ≠ []) :
    l₂.getLast? = l₁.getLast? := by
  rcases h with ⟨t, rfl⟩
  rw [List.getLast?_append, List.getLast?_eq_getLast l₁ hne]
  rfl

theorem mem_of_head?_eq {l : List Char} {c : Char} (h : l.head? = some c) :
    c ∈ l := by
  cases l with
  | nil => simp at h
  | cons a t =>
    simp only [List.head?_cons, Option.some.injEq] at h
    exact h ▸ List.mem_cons_self a t

theorem mem_of_getLast?_eq {l : List Char} {c : Char} (h : l.getLast? = some c) :
    c ∈ l := by
  rw [← List.head?_reverse] at h
  exact List.mem_reverse.mp (mem_of_head?_eq h)

/-- If the flanking blocks `A` and `B` respectively end and begin with a
character that does not occur in `pat`, and `pat` occurs in neither
flank, then `pat` occurs in `A ++ m ++ B` exactly when it occurs in the
middle block `m`. -/
theorem occursIn_middle {pat A B : List Char} (m : List Char) {c : Char}
    (hlast : A.getLast? = some c) (hhead : B.head? = some c) (hc : c ∉ pat)
    (hA : ¬ OccursIn pat A) (hB : ¬ OccursIn pat B) :
    OccursIn pat (A ++ m ++ B) ↔ OccursIn pat m := by
  constructor
  · intro h
    rw [List.append_assoc] at h
    rcases occursIn_append_split h with hA' | h2 | ⟨p, q, hpq, hp0, -, hsuf, -⟩
    · exact absurd hA' hA
    · rcases occursIn_append_split h2 with hm | hB' | ⟨p, q, hpq, -, hq0, -, hpre⟩
      · exact hm
      · exact absurd hB' hB
      · have h1 : q.head? = some c := (head?_of_pref hpre hq0) ▸ hhead
        have h3 : c ∈ q := mem_of_head?_eq h1
        have h4 : q ⊆ pat := by rw [hpq]; exact (List.suffix_append p q).subset
        exact absurd (h4 h3) hc
    · have h1 : p.getLast? = some c := (getLast?_of_suffix hsuf hp0) ▸ hlast
      have h3 : c ∈ p := mem_of_getLast?_eq h1
      have h4 : p ⊆ pat := by rw [hpq]; exact (List.prefix_append p q).subset
      exact absurd (h4 h3) hc
  · rintro ⟨u, v, rfl⟩
    exact ⟨A ++ u, v ++ B, by simp [List.append_assoc]⟩

theorem strContains_iff {s pat : String} :
    strContains s pat = true ↔ OccursIn pat.data s.data :=
  containsSub_iff

theorem bool_eq_of_iff {a b : Bool} (h : a = true ↔ b = true) : a = b := by
  cases a <;> cases b <;> simp_all

theorem strContains_append_r {b pat : String} (a : String)
    (h : strContains b pat = true) : strContains (a ++ b) pat = true := by
  rw [strContains_iff] at h ⊢
  rw [String.data_append]
  exact occursIn_append_right a.data h

theorem strContains_append_l {a pat : String} (b : String)
    (h : strContains a pat = true) : strContains (a ++ b) pat = true := by
  rw [strContains_iff] at h ⊢
  rw [String.data_append]
  exact occursIn_append_left b.data h

theorem strContains_self (s : String) : strContains s s = true :=
  strContains_iff.mpr (occursIn_self s.data)

/-! ### Claim theorems -/

/-- Claim C3 (corrected): persona resolution is total over all category
strings with no error case — every category other than "Work" and
"Dating" (including "Friends", "Family" and unrecognized strings)
yields the fallback profile; the code's fallback texts are persona
"You are a witty friend.", positive definition "Hype / Love" and
negative definition "Disagreement / Roast". -/
theorem resolvePersona_fallback (c : String) (hw : c ≠ "Work") (hd : c ≠ "Dating") :
    resolvePersona c =
      { persona := "You are a witty friend."
        neg_definition := "Disagreement / Roast"
        pos_definition := "Hype / Love" } := by
  simp [resolvePersona, hw, hd]

/-- Witness for the C3 theorem at the concrete category "Family". -/
theorem resolvePersona_fallback_witness :
    resolvePersona "Family" =
      { persona := "You are a witty friend."
        neg_definition := "Disagreement / Roast"
        pos_definition := "Hype / Love" } :=
  resolvePersona_fallback "Family" (by decide) (by decide)

/-- Counterexample to claim C3 as stated: at the category "Friends" the
code's fallback profile does not carry the claimed strings "Witty
Friend", "Hype/Validation" and "Roast/Disagreement". -/
theorem resolvePersona_fallback_cex :
    (resolvePersona "Friends").pos_definition ≠ "Hype/Validation" ∧
    (resolvePersona "Friends").neg_definition ≠ "Roast/Disagreement" ∧
    (resolvePersona "Friends").persona ≠ "Witty Friend" := by decide

/-- Claim C5: with the MOCK flag set, handling a request invokes neither
the similarity query nor the chat call (both counters are zero whatever
the oracles would return) and deterministically succeeds with the mock
response. -/
theorem mock_mode_no_outbound {Json : Type} (req : RequestPayload)
    (query_result : Except String (Option (List (List String))))
    (chat : String → String → Except String String)
    (parse_json : String → Except String Json) :
    run_mastermind true req query_result chat parse_json =
      (EndpointResult.mockSuccess (generate_mock_response req), 0, 0) := rfl

/-- Claim C6: the Work-dossier scenario request, handled in MOCK mode,
returns exactly the Work-specific canned replies. -/
theorem mock_work_scenario :
    (@run_mastermind Unit true work_req (Except.ok none)
        (fun _ _ => Except.error "unreachable") (fun _ => Except.error "unreachable")).1 =
      EndpointResult.mockSuccess
        { analysis := { translation := "Mock Logic", strategy_advice := "This is a demo response." }
          replies := [("positive", "I will handle this immediately."),
                      ("neutral", "Received, reviewing now."),
                      ("negative", "My bandwidth is full.")] } := rfl

/-- Claim C9: the `previous_rejects` field is accepted but never
consumed — replacing it by any other sequence leaves the composed
system prompt and the mock response unchanged. -/
theorem previous_rejects_unused (req : RequestPayload) (rejects : List String)
    (style_data : String) :
    build_system_prompt ⟨req.incoming_text, req.dossier, req.custom_input, rejects⟩
        style_data = build_system_prompt req style_data ∧
    generate_mock_response ⟨req.incoming_text, req.dossier, req.custom_input, rejects⟩ =
      generate_mock_response req :=
  ⟨rfl, rfl⟩

/-- Claim C10: a request whose `custom_input` is the empty string is
treated exactly like the same request with `custom_input` absent, by
both the prompt composer and the mock responder. -/
theorem empty_custom_input_like_none (req : RequestPayload) (style_data : String) :
    build_system_prompt ⟨req.incoming_text, req.dossier, some "", req.previous_rejects⟩
        style_data =
      build_system_prompt ⟨req.incoming_text, req.dossier, none, req.previous_rejects⟩
        style_data ∧
    generate_mock_response ⟨req.incoming_text, req.dossier, some "", req.previous_rejects⟩ =
      generate_mock_response ⟨req.incoming_text, req.dossier, none, req.previous_rejects⟩ :=
  ⟨rfl, rfl⟩

/-- Claim C7: in mock mode, a request with non-empty `custom_input`
gets a replies mapping whose keys are exactly option_1, option_2,
option_3, each value containing the custom input text verbatim. -/
theorem mock_custom_replies (req : RequestPayload) (s : String)
    (hs : req.custom_input = some s) (hne : s ≠ "") :
    (generate_mock_response req).replies.map Prod.fst =
        ["option_1", "option_2", "option_3"] ∧
    ∀ kv ∈ (generate_mock_response req).replies, strContains kv.2 s = true := by
  have htr : pyTruthy (some s) = true := by
    simp [pyTruthy, hne]
  constructor
  · simp [generate_mock_response, hs, htr]
  · intro kv hkv
    simp [generate_mock_response, hs, htr] at hkv
    rcases hkv with h | h | h <;> subst h <;>
      exact strContains_append_r _ (strContains_self s)

/-- Witness for the C7 theorem at the scenario request whose custom
input is "tell them no politely". -/
theorem mock_custom_replies_witness :
    (generate_mock_response custom_req).replies.map Prod.fst =
        ["option_1", "option_2", "option_3"] ∧
    ∀ kv ∈ (generate_mock_response custom_req).replies,
      strContains kv.2 "tell them no politely" = true :=
  mock_custom_replies custom_req "tell them no politely" rfl (by decide)

/-- Claim C2: in LIVE mode any failure among the live-path steps — the
similarity query, the chat call or the JSON parse — is surfaced to the
caller as the single uniform `HTTPException(500, e)` carrying the
underlying message `e`, with no retry (each outbound collaborator is
invoked at most once) and no partial success, regardless of which step
failed. -/
theorem live_failure_uniform {Json : Type} (req : RequestPayload)
    (query_result : Except String (Option (List (List String))))
    (chat : String → String → Except String String)
    (parse_json : String → Except String Json) (e : String)
    (h : query_result = Except.error e
      ∨ (∃ results, query_result = Except.ok results ∧
          chat (build_system_prompt req (style_context (extract_style_docs results)))
            (user_turn req.incoming_text) = Except.error e)
      ∨ (∃ results content, query_result = Except.ok results ∧
          chat (build_system_prompt req (style_context (extract_style_docs results)))
            (user_turn req.incoming_text) = Except.ok content ∧
          parse_json content = Except.error e)) :
    (run_mastermind false req query_result chat parse_json).1 =
        EndpointResult.failure 500 e ∧
    (run_mastermind false req query_result chat parse_json).2.1 ≤ 1 ∧
    (run_mastermind false req query_result chat parse_json).2.2 ≤ 1 := by
  rcases h with h | ⟨results, hq, hc⟩ | ⟨results, content, hq, hc, hp⟩
  · subst h; exact ⟨rfl, Nat.le_refl 1, Nat.zero_le 1⟩
  · subst hq; simp [run_mastermind, hc]
  · subst hq; simp [run_mastermind, hc, hp]

/-- Witness for the C2 theorem: a failed similarity query in LIVE mode
yields the uniform 500 failure with the underlying message. -/
theorem live_failure_uniform_witness :
    (@run_mastermind Nat false work_req (Except.error "boom")
        (fun _ _ => Except.ok "ok") (fun _ => Except.ok 0)).1 =
      EndpointResult.failure 500 "boom" ∧
    (@run_mastermind Nat false work_req (Except.error "boom")
        (fun _ _ => Except.ok "ok") (fun _ => Except.ok 0)).2.1 ≤ 1 ∧
    (@run_mastermind Nat false work_req (Except.error "boom")
        (fun _ _ => Except.ok "ok") (fun _ => Except.ok 0)).2.2 ≤ 1 :=
  live_failure_uniform work_req (Except.error "boom") (fun _ _ => Except.ok "ok")
    (fun _ => Except.ok 0) "boom" (Or.inl rfl)

/-- Claim C4 (corrected): a similarity query that completes with no
documents is swallowed — the live path proceeds with the empty-samples
placeholder prompt, and when the chat call and JSON parse succeed the
request succeeds; a similarity query that raises is instead surfaced as
the generic 500 failure (see the counterexample). -/
theorem query_no_docs_proceeds {Json : Type} (req : RequestPayload)
    (results : Option (List (List String)))
    (chat : String → String → Except String String)
    (parse_json : String → Except String Json) (content : String) (j : Json)
    (hdocs : extract_style_docs results = [])
    (hchat : chat (build_system_prompt req "(No past samples, use standard tone)")
        (user_turn req.incoming_text) = Except.ok content)
    (hparse : parse_json content = Except.ok j) :
    run_mastermind false req (Except.ok results) chat parse_json =
      (EndpointResult.liveSuccess j, 1, 1) := by
  simp [run_mastermind, hdocs, style_context, hchat, hparse]

/-- Witness for the C4 theorem: an empty query result in LIVE mode with
a succeeding chat oracle produces a live success. -/
theorem query_no_docs_proceeds_witness :
    @run_mastermind Nat false work_req (Except.ok (some []))
        (fun _ _ => Except.ok "parsed") (fun _ => Except.ok 7) =
      (EndpointResult.liveSuccess 7, 1, 1) :=
  query_no_docs_proceeds work_req (some []) (fun _ _ => Except.ok "parsed")
    (fun _ => Except.ok 7) "parsed" 7 rfl rfl rfl

/-- Counterexample to claim C4 as stated: a raised similarity-query
error in LIVE mode is not swallowed and not treated as "no samples" —
even though the chat oracle and parser would succeed, the caller
receives the generic 500 failure. -/
theorem query_failure_surfaced_cex :
    (@run_mastermind Nat false work_req (Except.error "chroma connection refused")
        (fun _ _ => Except.ok "parsed") (fun _ => Except.ok 7)).1 =
      EndpointResult.failure 500 "chroma connection refused" := rfl

theorem str_ne_empty {s : String} (h : s.data ≠ []) : s ≠ "" :=
  fun he => h (by rw [he])

theorem strContains_pyJoin (sep x : String) :
    ∀ xs : List String, x ∈ xs → strContains (pyJoin sep xs) x = true := by
  intro xs
  induction xs with
  | nil => intro h; cases h
  | cons a rest ih =>
    intro hx
    cases rest with
    | nil =>
      have hxa : x = a := by simpa using hx
      subst hxa
      exact strContains_self x
    | cons b rs =>
      rcases List.mem_cons.mp hx with h | h
      · subst h
        exact strContains_append_l _ (strContains_append_l _ (strContains_self x))
      · exact strContains_append_r _ (ih h)

theorem pyJoin_ne_empty (sep x : String) (hx : x.data ≠ []) (t : List String) :
    pyJoin sep (x :: t) ≠ "" := by
  cases t with
  | nil => exact str_ne_empty hx
  | cons b rs =>
    apply str_ne_empty
    simp only [pyJoin]
    rw [String.data_append, String.data_append]
    intro h
    rcases List.append_eq_nil.mp h with ⟨h1, -⟩
    rcases List.append_eq_nil.mp h1 with ⟨h2, -⟩
    exact hx h2

/-- Claim C8 (corrected): every retrieved style sample is embedded as a
"- "-prefixed bullet line; when the sample list is empty the literal
placeholder emitted by the code — "(No past samples, use standard
tone)" — is embedded instead, including into the composed system
prompt; the style-context block is never the empty string. -/
theorem style_context_placeholder :
    (∀ docs, docs ≠ [] →
      ∀ d ∈ docs, strContains (style_context docs) ("- " ++ d) = true) ∧
    style_context [] = "(No past samples, use standard tone)" ∧
    (∀ docs, style_context docs ≠ "") ∧
    (∀ req : RequestPayload,
      strContains (build_system_prompt req (style_context []))
        "(No past samples, use standard tone)" = true) := by
  refine ⟨?_, rfl, ?_, ?_⟩
  · intro docs hd d hmem
    rw [style_context, if_neg (by simpa [List.isEmpty_iff] using hd)]
    exact strContains_pyJoin "\n" ("- " ++ d) _ (List.mem_map_of_mem _ hmem)
  · intro docs
    cases docs with
    | nil => decide
    | cons d rest =>
      rw [style_context, if_neg (by simp [List.isEmpty_iff])]
      rw [List.map_cons]
      apply pyJoin_ne_empty
      rw [String.data_append]
      intro h
      exact absurd (List.append_eq_nil.mp h).1 (by decide)
  · intro req
    simp only [build_system_prompt]
    apply strContains_append_l
    apply strContains_append_l
    apply strContains_append_l
    apply strContains_append_r
    decide

/-- Witness for the C8 theorem: a two-sample list is embedded as
bullets, and the empty list still yields a non-empty context block. -/
theorem style_context_placeholder_witness :
    strContains (style_context ["sounds good", "on my way"]) ("- " ++ "on my way") = true ∧
    style_context [] ≠ "" :=
  ⟨style_context_placeholder.1 ["sounds good", "on my way"] (by simp) "on my way" (by simp),
   style_context_placeholder.2.2.1 []⟩

/-- Counterexample to claim C8 as stated: the empty-sample placeholder
emitted by the code is "(No past samples, use standard tone)", which
does not contain the claimed literal text "no samples found". -/
theorem style_context_placeholder_cex :
    strContains (style_context []) "no samples found" = false ∧
    style_context [] = "(No past samples, use standard tone)" :=
  ⟨by decide, rfl⟩

/-- In the custom branch, a label that neither occurs in the fixed text
around the interpolated custom input nor contains the double-quote
delimiter occurs in the generation task exactly when it occurs in the
custom input itself. -/
theorem custom_task_label_eq (s lab : String)
    (hA : containsSub lab.data custom_head.data = false)
    (hB : containsSub lab.data custom_tail.data = false)
    (hq : '"' ∉ lab.data) :
    strContains (custom_head ++ s ++ custom_tail) lab = strContains s lab := by
  have hA' : ¬ OccursIn lab.data custom_head.data := by
    intro hocc
    have h' := containsSub_iff.mpr hocc
    rw [hA] at h'
    exact Bool.false_ne_true h'
  have hB' : ¬ OccursIn lab.data custom_tail.data := by
    intro hocc
    have h' := containsSub_iff.mpr hocc
    rw [hB] at h'
    exact Bool.false_ne_true h'
  apply bool_eq_of_iff
  rw [strContains_iff, strContains_iff, String.data_append, String.data_append]
  exact occursIn_middle s.data (by decide) (by decide) hq hA' hB'

theorem build_generation_task_of_falsy {ci : Option String}
    (h : pyTruthy ci = false) (p n : String) :
    build_generation_task ci p n = build_generation_task none p n := by
  simp [build_generation_task, h, show pyTruthy none = false from rfl]

/-- Claim C1 (corrected): when `custom_input` is absent (or falsy), the
generation-task text contains exactly the three sentiment labels
"positive", "neutral", "negative" and none of the option labels; when
`custom_input` is a non-empty string, the generation-task text contains
the three labels "option_1", "option_2", "option_3", and it contains a
sentiment label exactly when the custom input text itself contains that
label (so the labels are exactly the option labels whenever the custom
input mentions no sentiment label). -/
theorem generation_task_labels (req : RequestPayload) :
    (pyTruthy req.custom_input = false →
      strContains (generation_task req) "positive" = true ∧
      strContains (generation_task req) "neutral" = true ∧
      strContains (generation_task req) "negative" = true ∧
      strContains (generation_task req) "option_1" = false ∧
      strContains (generation_task req) "option_2" = false ∧
      strContains (generation_task req) "option_3" = false) ∧
    (∀ s : String, req.custom_input = some s → s ≠ "" →
      (strContains (generation_task req) "option_1" = true ∧
       strContains (generation_task req) "option_2" = true ∧
       strContains (generation_task req) "option_3" = true) ∧
      (strContains (generation_task req) "positive" = strContains s "positive" ∧
       strContains (generation_task req) "neutral" = strContains s "neutral" ∧
       strContains (generation_task req) "negative" = strContains s "negative")) := by
  constructor
  · intro h
    simp only [generation_task]
    rw [build_generation_task_of_falsy h]
    by_cases h1 : req.dossier.category = "Work"
    · rw [h1]; decide
    · by_cases h2 : req.dossier.category = "Dating"
      · rw [h2]; decide
      · have h3 : resolvePersona req.dossier.category =
            { persona := "You are a witty friend."
              neg_definition := "Disagreement / Roast"
              pos_definition := "Hype / Love" } := by
          simp [resolvePersona, h1, h2]
        rw [h3]; decide
  · intro s hs hne
    have htr : pyTruthy (some s) = true := by simp [pyTruthy, hne]
    have hgt : generation_task req = custom_head ++ s ++ custom_tail := by
      simp [generation_task, build_generation_task, hs, htr]
    rw [hgt]
    refine ⟨⟨?_, ?_, ?_⟩,
      custom_task_label_eq s "positive" (by decide) (by decide) (by decide),
      custom_task_label_eq s "neutral" (by decide) (by decide) (by decide),
      custom_task_label_eq s "negative" (by decide) (by decide) (by decide)⟩
    · exact strContains_append_r _ (by decide)
    · exact strContains_append_r _ (by decide)
    · exact strContains_append_r _ (by decide)

/-- Witness for the C1 theorem at the sentiment-branch request
`work_req` (no custom input) and at the custom-branch request
`custom_req` (custom input "tell them no politely"). -/
theorem generation_task_labels_witness :
    (strContains (generation_task work_req) "positive" = true ∧
     strContains (generation_task work_req) "option_1" = false) ∧
    (strContains (generation_task custom_req) "option_1" = true ∧
     strContains (generation_task custom_req) "neutral" =
       strContains "tell them no politely" "neutral") := by
  constructor
  · have h := (generation_task_labels work_req).1 rfl
    exact ⟨h.1, h.2.2.2.1⟩
  · have h := (generation_task_labels custom_req).2 "tell them no politely" rfl (by decide)
    exact ⟨h.1.1, h.2.2.1⟩

/-- Counterexample to claim C1 as stated: for the non-empty custom
input "positive", the generation task contains the option labels but
also the sentiment label "positive", so it does not contain exactly the
three option labels. -/
theorem generation_task_labels_cex :
    pyTruthy adversarial_req.custom_input = true ∧
    strContains (generation_task adversarial_req) "option_1" = true ∧
    strContains (generation_task adversarial_req) "positive" = true := by
  decide
